import Mathlib

/-!
Verification of the extraction core of tap-facebook-pages against its design
specification.  The Python sources (tap_facebook_pages/client.py, streams.py,
tap.py) are shallowly embedded below: JSON values decoded by the standard json
module become the inductive type Json (Python int and float are distinct
constructors, as they are distinct Python types); Python dicts become
insertion-ordered association lists with Python dict set/update semantics;
raised exceptions become explicit error values; generator functions become
functions returning the list of yielded records together with the exception,
if any, that aborted the generator.
-/

/-- Json models a value decoded by Python json.loads: jint is a Python int,
jfloat a Python float (its numeric value represented exactly as a rational,
which is faithful for every value appearing in this development), obj an
insertion-ordered dict with string keys. -/
inductive Json where
  | null
  | bool (b : Bool)
  | jint (n : Int)
  | jfloat (q : Rat)
  | str (s : String)
  | arr (xs : List Json)
  | obj (fields : List (String × Json))

mutual

def Json.beq : Json → Json → Bool
  | .null, .null => true
  | .bool a, .bool b => a == b
  | .jint a, .jint b => a == b
  | .jfloat a, .jfloat b => a == b
  | .str a, .str b => a == b
  | .arr xs, .arr ys => Json.beqList xs ys
  | .obj xs, .obj ys => Json.beqObj xs ys
  | _, _ => false

def Json.beqList : List Json → List Json → Bool
  | [], [] => true
  | x :: xs, y :: ys => Json.beq x y && Json.beqList xs ys
  | _, _ => false

def Json.beqObj : List (String × Json) → List (String × Json) → Bool
  | [], [] => true
  | (k1, v1) :: xs, (k2, v2) :: ys => k1 == k2 && Json.beq v1 v2 && Json.beqObj xs ys
  | _, _ => false

end

mutual

theorem Json.beq_iff : ∀ a b : Json, Json.beq a b = true ↔ a = b
  | .null, b => by cases b <;> simp [Json.beq]
  | .bool x, b => by cases b <;> simp [Json.beq]
  | .jint x, b => by cases b <;> simp [Json.beq]
  | .jfloat x, b => by cases b <;> simp [Json.beq]
  | .str x, b => by cases b <;> simp [Json.beq]
  | .arr xs, b => by
      cases b <;> simp [Json.beq]
      exact Json.beqList_iff xs _
  | .obj xs, b => by
      cases b <;> simp [Json.beq]
      exact Json.beqObj_iff xs _

theorem Json.beqList_iff : ∀ xs ys : List Json, Json.beqList xs ys = true ↔ xs = ys
  | [], ys => by cases ys <;> simp [Json.beqList]
  | x :: xs, ys => by
      cases ys with
      | nil => simp [Json.beqList]
      | cons y ys =>
        simp [Json.beqList, Bool.and_eq_true, Json.beq_iff x y, Json.beqList_iff xs ys]

theorem Json.beqObj_iff : ∀ xs ys : List (String × Json), Json.beqObj xs ys = true ↔ xs = ys
  | [], ys => by cases ys <;> simp [Json.beqObj]
  | (k, v) :: xs, ys => by
      cases ys with
      | nil => simp [Json.beqObj]
      | cons y ys =>
        obtain ⟨k2, v2⟩ := y
        simp [Json.beqObj, Bool.and_eq_true, Json.beq_iff v v2, Json.beqObj_iff xs ys,
          and_assoc]

end

instance : DecidableEq Json := fun a b =>
  decidable_of_iff (Json.beq a b = true) (Json.beq_iff a b)

/-- PyErr models the Python exceptions the embedded code can raise. -/
inductive PyErr where
  | keyError (key : String)
  | valueError
  | typeError
  | attributeError
  deriving DecidableEq, Repr

/-- Record emitted by a stream: a Python dict with string keys and JSON
values, in insertion order. -/
abbrev Rec := List (String × Json)

/-- Dict lookup, i.e. Python d.get(k): the value stored at the key, if any.
Keys are unique in any dict built by aset/aupdate, and lookup returns the
first (hence only) binding. -/
def alookup {α : Type} : List (String × α) → String → Option α
  | [], _ => none
  | (k, v) :: rest, key => if k = key then some v else alookup rest key

/-- Dict store, i.e. Python d[k] = v: replaces the value in place when the key
is present (Python dicts keep the original insertion position), otherwise
appends the new binding. -/
def aset {α : Type} : List (String × α) → String → α → List (String × α)
  | [], key, v => [(key, v)]
  | (k, w) :: rest, key, v =>
      if k = key then (k, v) :: rest else (k, w) :: aset rest key v

/-- Dict update, i.e. Python d.update(e): stores every binding of e into d in
order. -/
def aupdate {α : Type} (d e : List (String × α)) : List (String × α) :=
  e.foldl (fun acc kv => aset acc kv.1 kv.2) d

/-- Truthiness of a JSON value under Python bool(). -/
def Json.truthy : Json → Bool
  | .null => false
  | .bool b => b
  | .jint n => n ≠ 0
  | .jfloat q => q ≠ 0
  | .str s => s ≠ ""
  | .arr xs => !xs.isEmpty
  | .obj fs => !fs.isEmpty

/-- Integer value of a digit string, if every character is a digit and the
string is nonempty. -/
def digitsToNat : List Char → Option Nat
  | [] => none
  | cs =>
      cs.foldl
        (fun acc c =>
          match acc with
          | none => none
          | some n => if c.isDigit then some (n * 10 + (c.toNat - 48)) else none)
        (some 0)

/-- Python float(s) on the string s restricted to the literal shapes used by
this development: an optional sign, a nonempty digit run, and an optional
fractional digit run.  Everything else yields none, modelling the ValueError
Python raises. -/
def parseFloatString (s : String) : Option Rat :=
  let cs := s.toList
  let signed : List Char → Option (Rat → Rat)
    | '-' :: rest => if rest.isEmpty then none else some (fun q => -q)
    | '+' :: rest => if rest.isEmpty then none else some id
    | _ => some id
  let body := match cs with
    | '-' :: rest => rest
    | '+' :: rest => rest
    | rest => rest
  match signed cs with
  | none => none
  | some sgn =>
      match body.splitOn '.' with
      | [intPart] =>
          (digitsToNat intPart).map (fun n => sgn n)
      | [intPart, fracPart] =>
          match digitsToNat intPart, digitsToNat fracPart with
          | some i, some f =>
              some (sgn ((i : Rat) + (f : Rat) / (10 : Rat) ^ fracPart.length))
          | _, _ => none
      | _ => none

/-- Python float(v) applied to a JSON value: ints and floats convert to their
numeric value, bools to 0 or 1, numeric strings parse, and every other value
raises (TypeError for null/list/dict, ValueError for a non-numeric string). -/
def pyFloat : Json → Except PyErr Rat
  | .jint n => .ok (n : Rat)
  | .jfloat q => .ok q
  | .bool b => .ok (if b then 1 else 0)
  | .str s =>
      match parseFloatString s with
      | some q => .ok q
      | none => .error .valueError
  | _ => .error .typeError

/-- Calendar date, as manipulated through the pendulum library by the
source. -/
structure Date where
  year : Nat
  month : Nat
  day : Nat
  deriving DecidableEq, Repr

/-- Gregorian leap-year test. -/
def isLeapYear (y : Nat) : Bool :=
  (y % 4 = 0 && y % 100 ≠ 0) || y % 400 = 0

/-- Number of days in a month. -/
def daysInMonth (y m : Nat) : Nat :=
  if m = 2 then (if isLeapYear y then 29 else 28)
  else if m = 4 || m = 6 || m = 9 || m = 11 then 30
  else 31

/-- Step one day back, with month and year underflow. -/
def subOneDay (d : Date) : Date :=
  if 1 < d.day then ⟨d.year, d.month, d.day - 1⟩
  else if 1 < d.month then ⟨d.year, d.month - 1, daysInMonth d.year (d.month - 1)⟩
  else ⟨d.year - 1, 12, 31⟩

/-- Pendulum subtract(days=n). -/
def subDays : Nat → Date → Date
  | 0, d => d
  | n + 1, d => subDays n (subOneDay d)

/-- Pendulum subtract(years=n): decrement the year and clamp the day to the
length of the target month (Feb 29 falls back to Feb 28). -/
def subYears (n : Nat) (d : Date) : Date :=
  ⟨d.year - n, d.month, min d.day (daysInMonth (d.year - n) d.month)⟩

/-- Character for a decimal digit. -/
def digitChar (n : Nat) : Char := Char.ofNat (48 + n % 10)

/-- Two-digit zero-padded decimal rendering. -/
def pad2 (n : Nat) : String := String.mk [digitChar (n / 10), digitChar n]

/-- Four-digit zero-padded decimal rendering. -/
def pad4 (n : Nat) : String :=
  String.mk [digitChar (n / 1000), digitChar (n / 100), digitChar (n / 10), digitChar n]

/-- Pendulum to_date_string(): YYYY-MM-DD. -/
def Date.toDateString (d : Date) : String :=
  pad4 d.year ++ "-" ++ pad2 d.month ++ "-" ++ pad2 d.day

/-- Pendulum to_datetime_string() of a date at midnight, as produced by
pendulum.today() based values: YYYY-MM-DD HH:MM:SS with a zero time part. -/
def Date.toMidnightString (d : Date) : String :=
  d.toDateString ++ " 00:00:00"

/-- Validity of the 19-character naive part YYYY-MM-DDTHH:MM:SS of an ISO
timestamp, character by character. -/
def validNaive19 : List Char → Bool
  | [y1, y2, y3, y4, '-', m1, m2, '-', d1, d2, 'T', h1, h2, ':', n1, n2, ':', s1, s2] =>
      [y1, y2, y3, y4, m1, m2, d1, d2, h1, h2, n1, n2, s1, s2].all Char.isDigit
  | _ => false

/-- Validity of a trailing UTC-offset suffix: empty, Z, or a signed 4-digit or
HH:MM offset (the ISO-8601 subset relevant to this upstream, which emits
+0000 style offsets). -/
def validOffset : List Char → Bool
  | [] => true
  | ['Z'] => true
  | [s, a, b, c, d] => (s = '+' || s = '-') && [a, b, c, d].all Char.isDigit
  | [s, a, b, ':', c, d] => (s = '+' || s = '-') && [a, b, c, d].all Char.isDigit
  | _ => false

/-- Validity of the 10-character date part YYYY-MM-DD. -/
def validDate10 : List Char → Bool
  | [y1, y2, y3, y4, '-', m1, m2, '-', d1, d2] =>
      [y1, y2, y3, y4, m1, m2, d1, d2].all Char.isDigit
  | _ => false

/-- Composition pendulum.parse(s).to_datetime_string() for the timestamp
shapes this upstream emits: a full ISO timestamp keeps its naive part with
the T separator replaced by a space (pendulum renders in the parsed offset),
and a bare date gains a midnight time part.  Strings outside this subset of
ISO-8601 yield none, modelling the parser error pendulum raises. -/
def pendulumParseToDatetimeString (s : String) : Option String :=
  let cs := s.toList
  if validNaive19 (cs.take 19) && validOffset (cs.drop 19) then
    some (String.mk ((cs.take 10) ++ (' ' :: (cs.drop 11).take 8)))
  else if validDate10 cs then
    some (String.mk cs ++ " 00:00:00")
  else none

/-- Composition of pendulum.parse with date-part extraction, for the
start_date configuration value: accepts YYYY-MM-DD, alone or followed by a
T-separated time part. -/
def pendulumParseDate (s : String) : Option Date :=
  let cs := s.toList
  let rest := cs.drop 10
  if validDate10 (cs.take 10) && (rest.isEmpty || (validNaive19 cs && validOffset (cs.drop 19))) then
    match digitsToNat (cs.take 4), digitsToNat ((cs.drop 5).take 2), digitsToNat ((cs.drop 8).take 2) with
    | some y, some m, some d => some ⟨y, m, d⟩
    | _, _, _ => none
  else none

/-- Regular expressions over characters, covering the constructs used by the
patterns in client.py: literal characters, the dot (any character except a
newline, DOTALL being off), the digit class, star, plus via star, catenation
and alternation. -/
inductive RE where
  | void
  | eps
  | chr (c : Char)
  | anyc
  | digit
  | star (r : RE)
  | cat (a b : RE)
  | alt (a b : RE)
  deriving Repr

/-- Nullability: whether the language of the expression contains the empty
string. -/
def RE.nullable : RE → Bool
  | .void => false
  | .eps => true
  | .chr _ => false
  | .anyc => false
  | .digit => false
  | .star _ => true
  | .cat a b => a.nullable && b.nullable
  | .alt a b => a.nullable || b.nullable

/-- Smart catenation constructor, simplifying around void and eps so that
derivatives stay small. -/
def RE.mkCat : RE → RE → RE
  | .void, _ => .void
  | _, .void => .void
  | .eps, b => b
  | a, .eps => a
  | a, b => .cat a b

/-- Smart alternation constructor, simplifying around void. -/
def RE.mkAlt : RE → RE → RE
  | .void, b => b
  | a, .void => a
  | a, b => .alt a b

/-- Brzozowski derivative with respect to one character. -/
def RE.deriv (c : Char) : RE → RE
  | .void => .void
  | .eps => .void
  | .chr c2 => if c = c2 then .eps else .void
  | .anyc => if c = '\n' then .void else .eps
  | .digit => if c.isDigit then .eps else .void
  | .star r => RE.mkCat (r.deriv c) (.star r)
  | .cat a b =>
      if a.nullable then RE.mkAlt (RE.mkCat (a.deriv c) b) (b.deriv c)
      else RE.mkCat (a.deriv c) b
  | .alt a b => RE.mkAlt (a.deriv c) (b.deriv c)

/-- Whole-string match by iterated derivatives.  The patterns below are all
anchored as caret dot-star ... dot-star dollar, for which Python re.match
succeeds exactly on a whole-string match; the only divergence of this model
is the Python dollar also matching just before a single trailing newline,
immaterial here because the dot of these patterns can never consume that
newline. -/
def RE.matchWhole (r : RE) (s : String) : Bool :=
  (s.toList.foldl (fun acc c => RE.deriv c acc) r).nullable

/-- Catenation of a list of expressions. -/
def RE.seq (rs : List RE) : RE := rs.foldr RE.mkCat .eps

/-- Literal string as an expression. -/
def RE.lit (s : String) : RE := RE.seq (s.toList.map RE.chr)

/-- One or more repetitions. -/
def RE.plus1 (r : RE) : RE := RE.mkCat r (.star r)

/-- Single-quote character, written by code point. -/
def squote : String := String.singleton (Char.ofNat 39)

namespace FacebookPagesStream

/-- Pattern compiled at client.py line 130: a message mentioning an object
with a numeric id that does not exist. -/
def not_exists_pattern : RE :=
  RE.seq [.star .anyc, RE.lit ("Object with ID " ++ squote), RE.plus1 .digit, .star .anyc,
    RE.lit (squote ++ " does not exist"), .star .anyc]

/-- Pattern compiled at client.py line 135: an unsupported get request. -/
def unsupported_pattern : RE :=
  RE.seq [.star .anyc, RE.lit "Unsupported request - method type: get", .star .anyc]

/-- Pattern compiled at client.py line 140: a missing-permission message. -/
def permissions_error : RE :=
  RE.seq [.star .anyc, RE.lit ("This endpoint requires the " ++ squote), .star .anyc,
    RE.lit (squote ++ " permission"), .star .anyc]

/-- Pattern compiled at client.py line 161: monetization metrics visibility. -/
def monetization_access_pattern : RE :=
  RE.seq [.star .anyc, RE.lit "Monetization metrics are only visible for Page admins",
    .star .anyc]

/-- Retry message compared by equality at client.py line 157. -/
def page_access_token_message : String :=
  "(#190) This method must be called with a Page Access Token"

end FacebookPagesStream

/-- Outcome of FacebookPagesStream.validate_response: skip is a normal return
after a warning log (the caller then treats the page as empty), retry raises
RetriableAPIError, fail raises FatalAPIError, crash is an exception escaping
the classifier itself (for example a TypeError from matching a pattern
against None), and deferSuper delegates to the library base class for status
codes outside the guarded range. -/
inductive VOutcome where
  | skip (msg : String)
  | retry (msg : String)
  | fail (msg : String)
  | crash (e : PyErr)
  | deferSuper
  deriving DecidableEq, Repr

/-- Rendering of the error message object inside the f-string at client.py
lines 123 to 127: Python str() of the extracted value, which is the literal
None when the field is absent. -/
def pyStrOfMsg : Option Json → String
  | none => "None"
  | some (.str s) => s
  | some .null => "None"
  | some _ => "<non-string error message>"

namespace FacebookPagesStream

/-- Message built at client.py lines 123 to 127. -/
def clientErrorMsg (status : Nat) (reason path : String) (errMsg : Option Json) : String :=
  toString status ++ " Client Error: " ++ reason ++ " for path: " ++ path ++ ": "
    ++ pyStrOfMsg errMsg

/-- Tail of the classifier, client.py lines 153 to 176: the retry comparison,
the 403 monetization check, and the final FatalAPIError. -/
def classifyTail (status : Nat) (msg : String) (errMsg : Option Json) : VOutcome :=
  if status = 400 &&
      (match errMsg with
       | some (.str s) => s = page_access_token_message
       | _ => false) then
    .retry msg
  else if status = 403 then
    match errMsg with
    | some (.str s) =>
        if RE.matchWhole monetization_access_pattern s then .skip msg else .fail msg
    | _ => .crash .typeError
  else .fail msg

/-- Embedding of FacebookPagesStream.validate_response, client.py lines 119
to 177, as a function of the response status code, the transport reason
phrase, the stream path, and the decoded JSON body. -/
def validate_response (status : Nat) (reason path : String) (body : Json) : VOutcome :=
  if (400 ≤ status && status < 500) || status == 100 then
    match body with
    | .obj bodyFields =>
        match (alookup bodyFields "error").getD (.obj []) with
        | .obj errFields =>
            let errMsg := alookup errFields "message"
            let msg := clientErrorMsg status reason path errMsg
            if status = 100 || status = 400 then
              match errMsg with
              | some (.str s) =>
                  if RE.matchWhole not_exists_pattern s
                      || RE.matchWhole unsupported_pattern s
                      || RE.matchWhole permissions_error s then
                    .skip msg
                  else classifyTail status msg errMsg
              | _ => .crash .typeError
            else classifyTail status msg errMsg
        | _ => .crash .attributeError
    | _ => .crash .attributeError
  else .deferSuper

/-- Bound on retry attempts, client.py lines 61 to 66. -/
def backoff_max_tries : Nat := 10

end FacebookPagesStream

namespace FacebookPagesStream

/-- Jsonpath constant at client.py lines 32 to 34. -/
def next_page_token_jsonpath : String := "$.paging.cursors.after"

/-- Extraction along the fixed path paging.cursors.after: the first match of
the jsonpath, or none when any step is absent. -/
def pagingCursorsAfter : Json → Option Json
  | .obj fields =>
      match alookup fields "paging" with
      | some (.obj paging) =>
          match alookup paging "cursors" with
          | some (.obj cursors) => alookup cursors "after"
          | _ => none
      | _ => none
  | _ => none

/-- Embedding of FacebookPagesStream.get_next_page_token, client.py lines 68
to 86: with the jsonpath constant nonempty, the paging cursor is extracted
from the body; the header fallback branch is dead under that constant. -/
def get_next_page_token (body : Json) (headers : List (String × String))
    (_previousToken : Option Json) : Option Json :=
  if next_page_token_jsonpath ≠ "" then pagingCursorsAfter body
  else (alookup headers "X-Next-Page").map Json.str

/-- Embedding of FacebookPagesStream.get_url_params, client.py lines 88 to
98.  The pagination token and the replication key are checked for Python
truthiness, which for an optional string is presence and nonemptiness. -/
def get_url_params (userToken : String) (nextPageToken : Option String)
    (replicationKey : Option String) : List (String × String) :=
  let params : List (String × String) := [("access_token", userToken)]
  let params :=
    match nextPageToken with
    | some t => if t ≠ "" then aset params "after" t else params
    | none => params
  match replicationKey with
  | some rk => if rk ≠ "" then aset (aset params "sort" "asc") "order_by" rk else params
  | none => params

end FacebookPagesStream

namespace InsightsStream

/-- Replication key of every insights stream, streams.py line 129. -/
def replication_key : Option String := some "end_time"

/-- Embedding of InsightsStream.get_next_page_token, streams.py lines 134 to
137: the override returns None for every response. -/
def get_next_page_token (_body : Json) (_headers : List (String × String))
    (_previousToken : Option Json) : Option Json :=
  none

/-- Computation of end_time for one element of the values list, streams.py
lines 153 to 158: a truthy end_time field is parsed by pendulum and rendered
as a datetime string; a falsy or absent one (lifetime metric) is replaced by
pendulum.today() minus two years, at midnight. -/
def computeEndTime (today : Date) (vals : Rec) : Except PyErr String :=
  match alookup vals "end_time" with
  | some v =>
      if v.truthy then
        match v with
        | .str s =>
            match pendulumParseToDatetimeString s with
            | some t => .ok t
            | none => .error .valueError
        | _ => .error .typeError
      else .ok ((subYears 2 today).toMidnightString)
  | none => .ok ((subYears 2 today).toMidnightString)

/-- Inner loop of the flattener, streams.py lines 162 to 169: one record per
leaf of a two-level nested value, with the two keys joined into the context
label and the leaf coerced by float().  A coercion failure aborts the
generator, keeping the records already yielded. -/
def flattenInner (base : Rec) (endTime : String) (key : String) :
    List (String × Json) → List Rec × Option PyErr
  | [] => ([], none)
  | (k, v) :: rest =>
      match pyFloat v with
      | .error e => ([], some e)
      | .ok q =>
          let item := aupdate
            [("context", .str (key ++ " > " ++ k)), ("value", .jfloat q),
              ("end_time", .str endTime)] base
          match flattenInner base endTime key rest with
          | (rs, err) => (item :: rs, err)

/-- Outer loop of the flattener, streams.py lines 159 to 177: a dict-valued
entry recurses into the inner loop, any other entry becomes one record with
its key as context and its value coerced by float(). -/
def flattenTop (base : Rec) (endTime : String) :
    List (String × Json) → List Rec × Option PyErr
  | [] => ([], none)
  | (key, .obj inner) :: rest =>
      match flattenInner base endTime key inner with
      | (rs, some e) => (rs, some e)
      | (rs, none) =>
          match flattenTop base endTime rest with
          | (rs2, err) => (rs ++ rs2, err)
  | (key, v) :: rest =>
      match pyFloat v with
      | .error e => ([], some e)
      | .ok q =>
          let item := aupdate
            [("context", .str key), ("value", .jfloat q), ("end_time", .str endTime)] base
          match flattenTop base endTime rest with
          | (rs, err) => (item :: rs, err)

/-- Flattening of one element of row values, streams.py lines 152 to 181:
compute end_time, then branch on the shape of the value field.  A dict value
goes through the nested loops; any other value is emitted as the original
entry dict itself, with end_time overwritten in place and the base fields
appended, and in particular with no float() coercion and no context field. -/
def flattenEntry (today : Date) (base : Rec) (vals : Rec) : List Rec × Option PyErr :=
  match computeEndTime today vals with
  | .error e => ([], some e)
  | .ok endTime =>
      match alookup vals "value" with
      | some (.obj kvs) => flattenTop base endTime kvs
      | some _ => ([aupdate (aset vals "end_time" (.str endTime)) base], none)
      | none => ([], some (.keyError "value"))

/-- Iteration over the values list of one insights result.  An element that
is not a dict makes the .get attribute access raise. -/
def flattenValuesList (today : Date) (base : Rec) : List Json → List Rec × Option PyErr
  | [] => ([], none)
  | .obj vals :: rest =>
      match flattenEntry today base vals with
      | (rs, some e) => (rs, some e)
      | (rs, none) =>
          match flattenValuesList today base rest with
          | (rs2, err) => (rs ++ rs2, err)
  | _ :: _ => ([], some .attributeError)

/-- Flattening of one insights result row, streams.py lines 144 to 181: the
base fields name, period, title and id are read in the order of the dict
literal (the first absent one raises KeyError), and a row without a values
field yields nothing. -/
def flattenRow (today : Date) (row : Json) : List Rec × Option PyErr :=
  match row with
  | .obj rf =>
      match alookup rf "name" with
      | none => ([], some (.keyError "name"))
      | some nameV =>
          match alookup rf "period" with
          | none => ([], some (.keyError "period"))
          | some periodV =>
              match alookup rf "title" with
              | none => ([], some (.keyError "title"))
              | some titleV =>
                  match alookup rf "id" with
                  | none => ([], some (.keyError "id"))
                  | some idV =>
                      let base : Rec :=
                        [("name", nameV), ("period", periodV), ("title", titleV),
                          ("id", idV)]
                      match alookup rf "values" with
                      | some (.arr vs) => flattenValuesList today base vs
                      | some _ => ([], some .typeError)
                      | none => ([], none)
  | _ => ([], some .typeError)

/-- Iteration over the data list of the response. -/
def flattenRows (today : Date) : List Json → List Rec × Option PyErr
  | [] => ([], none)
  | row :: rest =>
      match flattenRow today row with
      | (rs, some e) => (rs, some e)
      | (rs, none) =>
          match flattenRows today rest with
          | (rs2, err) => (rs ++ rs2, err)

/-- Embedding of InsightsStream.parse_response, streams.py lines 139 to 181,
as a function of the current date (pendulum.today()) and the decoded response
body.  The result is the list of yielded records together with the exception,
if any, that aborted the generator.  A body without a data field only logs a
warning and yields nothing; the membership test on a non-dict body follows
Python semantics (substring test on strings, element test on lists, TypeError
otherwise). -/
def parse_response (today : Date) (respJson : Json) : List Rec × Option PyErr :=
  match respJson with
  | .obj rf =>
      match alookup rf "data" with
      | none => ([], none)
      | some (.arr rows) => flattenRows today rows
      | some _ => ([], some .typeError)
  | .arr xs => if Json.str "data" ∈ xs then ([], some .typeError) else ([], none)
  | .str s => if (s.splitOn "data").length > 1 then ([], some .typeError) else ([], none)
  | _ => ([], some .typeError)

end InsightsStream

namespace PageInsightsStream

/-- Embedding of PageInsightsStream.get_url_params, streams.py lines 189 to
205, as a function of its inputs: the user token and page token table, the
metric list of the concrete stream, the start_date configuration value, the
partition page id, the pagination token, and the starting timestamp for the
partition.  The starting timestamp stands for the singer-sdk call
get_starting_timestamp(context); that library call is not part of this
repository, and is modelled from the spec: the replication trackers stored
high-water mark for the partition, none when the partition has no prior
replication state. -/
def get_url_params (userToken : String) (pageTokens : List (String × String))
    (metrics : List String) (startDateCfg : Option String) (pageId : String)
    (nextPageToken : Option String) (startingTs : Option Date) :
    Except PyErr (List (String × String)) := do
  let params := FacebookPagesStream.get_url_params userToken nextPageToken
    InsightsStream.replication_key
  let params ←
    match startingTs with
    | some ts =>
        -- extra 2 day look back in case metrics are updated late
        pure (aset params "since" ((subDays 2 ts).toDateString))
    | none =>
        -- since date is not included in the range so subtract 1 day
        match startDateCfg with
        | none => .error (.keyError "start_date")
        | some sd =>
            match pendulumParseDate sd with
            | none => .error .valueError
            | some d => pure (aset params "since" ((subDays 1 d).toDateString))
  let params ←
    match alookup pageTokens pageId with
    | some tok => pure (aset params "access_token" tok)
    | none => .error (.keyError pageId)
  pure (aset params "metric" (String.intercalate "," metrics))

end PageInsightsStream

namespace TapFacebookPages

/-- Version constant, tap.py line 43. -/
def GRAPH_API_VERSION : String := "15.0"

/-- Base URL constant, tap.py line 44. -/
def BASE_URL : String := "https://graph.facebook.com/v" ++ GRAPH_API_VERSION

/-- One entry of the pages configuration list: both fields are required by
the configuration schema, tap.py lines 69 to 79. -/
structure PageCfg where
  id : String
  access_token : String

/-- Request URL built by exchange_token, tap.py line 96. -/
def exchange_token_url (pageId : String) : String := BASE_URL ++ "/" ++ pageId

/-- Query parameters sent by exchange_token, tap.py lines 97 to 100. -/
def exchange_token_params (userToken : String) : List (String × String) :=
  [("fields", "access_token,name"), ("access_token", userToken)]

/-- Outcome of exchange_token: the returned token value, the RuntimeError
raised on a non-200 status, or an exception escaping from indexing into the
response body. -/
inductive ExchangeResult where
  | ok (token : Json)
  | runtimeError (msg : String)
  | pyError (e : PyErr)
  deriving DecidableEq

/-- Embedding of TapFacebookPages.exchange_token, tap.py lines 95 to 114, as
a function of the response status and decoded body: every status other than
200 raises RuntimeError with the upstream error message embedded, and a 200
response yields the access_token field of the body. -/
def exchange_token (status : Nat) (body : Json) : ExchangeResult :=
  if status ≠ 200 then
    match body with
    | .obj bodyFields =>
        match alookup bodyFields "error" with
        | some (.obj errFields) =>
            match alookup errFields "message" with
            | some (.str m) => .runtimeError ("Failed exchanging token: " ++ m)
            | some _ => .pyError .typeError
            | none => .pyError (.keyError "message")
        | some _ => .pyError .typeError
        | none => .pyError (.keyError "error")
    | _ => .pyError .typeError
  else
    match body with
    | .obj bodyFields =>
        match alookup bodyFields "access_token" with
        | some tok => .ok tok
        | none => .pyError (.keyError "access_token")
    | _ => .pyError .typeError

/-- Credential table built by discover_streams, tap.py lines 122 to 125: a
dict comprehension from page id to the configured page access token. -/
def page_access_tokens (pages : List PageCfg) : List (String × String) :=
  pages.foldl (fun d p => aset d p.id p.access_token) []

end TapFacebookPages

/-- Retry driving, modelled from the spec: the request loop of the singer-sdk
pager is not part of this repository, and section 5 of the spec describes it
as bounded exponential backoff with a maximum attempt count, where exceeding
the attempt count converts a would-be retry into a Fail.  The first argument
is the classification of each numbered attempt, the second the number of
tries left after the current one, the third the current attempt number. -/
def resolveWithRetries (attempt : Nat → VOutcome) : Nat → Nat → VOutcome
  | triesLeft, k =>
      match attempt k with
      | .retry m =>
          match triesLeft with
          | 0 => .fail m
          | tl + 1 => resolveWithRetries attempt tl (k + 1)
      | o => o

theorem alookup_aset_self {α : Type} (d : List (String × α)) (k : String) (v : α) :
    alookup (aset d k v) k = some v := by
  induction d with
  | nil => simp [aset, alookup]
  | cons kv rest ih =>
      obtain ⟨k1, w⟩ := kv
      by_cases h : k1 = k
      · simp [aset, h, alookup]
      · simp [aset, h, alookup, ih]

theorem alookup_aset_ne {α : Type} (d : List (String × α)) (key k : String) (v : α)
    (h : key ≠ k) : alookup (aset d key v) k = alookup d k := by
  induction d with
  | nil => simp [aset, alookup, h]
  | cons kv rest ih =>
      obtain ⟨k1, w⟩ := kv
      by_cases h1 : k1 = key
      · simp [aset, h1, alookup, h]
      · simp [aset, h1, alookup, ih]

theorem aupdate_cons {α : Type} (d : List (String × α)) (k : String) (v : α) (e) :
    aupdate d ((k, v) :: e) = aupdate (aset d k v) e := rfl

theorem alookup_aupdate_notin {α : Type} (d e : List (String × α)) (k : String)
    (h : alookup e k = none) : alookup (aupdate d e) k = alookup d k := by
  induction e generalizing d with
  | nil => simp [aupdate]
  | cons kv rest ih =>
      obtain ⟨k1, v⟩ := kv
      have h1 : k1 ≠ k := by
        intro hh
        simp [alookup, hh] at h
      have h2 : alookup rest k = none := by
        simpa [alookup, h1] using h
      rw [aupdate_cons, ih _ h2, alookup_aset_ne _ _ _ _ h1]

theorem mem_of_consMatch {item : Rec} {p : List Rec × Option PyErr} {r : Rec}
    (hr : r ∈ (match p with | (rs, err) => (item :: rs, err)).1) :
    r = item ∨ r ∈ p.1 := by
  obtain ⟨rs, err⟩ := p
  simpa using hr

theorem mem_of_appendMatch {rs1 : List Rec} {p : List Rec × Option PyErr} {r : Rec}
    (hr : r ∈ (match p with | (rs2, err) => (rs1 ++ rs2, err)).1) :
    r ∈ rs1 ∨ r ∈ p.1 := by
  obtain ⟨rs2, err⟩ := p
  simpa using hr

theorem alookup_item_context (base : Rec) (c : String) (q : Rat) (et : String)
    (hb : alookup base "context" = none) :
    alookup (aupdate
      [("context", Json.str c), ("value", Json.jfloat q), ("end_time", Json.str et)] base)
      "context" = some (Json.str c) := by
  rw [alookup_aupdate_notin _ _ _ hb]
  rfl

theorem alookup_item_value (base : Rec) (c : String) (q : Rat) (et : String)
    (hb : alookup base "value" = none) :
    alookup (aupdate
      [("context", Json.str c), ("value", Json.jfloat q), ("end_time", Json.str et)] base)
      "value" = some (Json.jfloat q) := by
  rw [alookup_aupdate_notin _ _ _ hb]
  rfl

theorem alookup_item_end_time (base : Rec) (c : String) (q : Rat) (et : String)
    (hb : alookup base "end_time" = none) :
    alookup (aupdate
      [("context", Json.str c), ("value", Json.jfloat q), ("end_time", Json.str et)] base)
      "end_time" = some (Json.str et) := by
  rw [alookup_aupdate_notin _ _ _ hb]
  rfl

namespace InsightsStream

theorem flattenTop_cons_scalar (base : Rec) (et k : String) (v : Json)
    (rest : List (String × Json)) (hnot : ∀ inner, v ≠ Json.obj inner) :
    flattenTop base et ((k, v) :: rest) =
      match pyFloat v with
      | .error e => ([], some e)
      | .ok q =>
          match flattenTop base et rest with
          | (rs, err) =>
              (aupdate [("context", Json.str k), ("value", Json.jfloat q),
                ("end_time", Json.str et)] base :: rs, err) := by
  cases v with
  | obj inner => exact absurd rfl (hnot inner)
  | null => rfl
  | bool b => rfl
  | jint n => rfl
  | jfloat x => rfl
  | str s => rfl
  | arr xs => rfl

theorem flattenInner_mem (base : Rec) (et key : String) :
    ∀ (kvs : List (String × Json)), ∀ r ∈ (flattenInner base et key kvs).1,
      ∃ c q, r = aupdate
        [("context", Json.str c), ("value", Json.jfloat q), ("end_time", Json.str et)] base
  | [], r, hr => by simp [flattenInner] at hr
  | (k, v) :: rest, r, hr => by
      unfold flattenInner at hr
      cases hq : pyFloat v with
      | error e => rw [hq] at hr; simp at hr
      | ok q =>
          rw [hq] at hr
          rcases mem_of_consMatch hr with hEq | hMem
          · exact ⟨key ++ " > " ++ k, q, hEq⟩
          · exact flattenInner_mem base et key rest r hMem

theorem flattenTop_mem (base : Rec) (et : String) :
    ∀ (kvs : List (String × Json)), ∀ r ∈ (flattenTop base et kvs).1,
      ∃ c q, r = aupdate
        [("context", Json.str c), ("value", Json.jfloat q), ("end_time", Json.str et)] base
  | [], r, hr => by simp [flattenTop] at hr
  | (k, Json.obj inner) :: rest, r, hr => by
      unfold flattenTop at hr
      cases hfi : flattenInner base et k inner with
      | mk rs err =>
          rw [hfi] at hr
          cases err with
          | some e =>
              have hin : r ∈ (flattenInner base et k inner).1 := by
                rw [hfi]; simpa using hr
              exact flattenInner_mem base et k inner r hin
          | none =>
              have hr2 : r ∈ (match flattenTop base et rest with
                  | (rs2, err) => (rs ++ rs2, err)).1 := hr
              rcases mem_of_appendMatch hr2 with hIn | hIn
              · have hin : r ∈ (flattenInner base et k inner).1 := by
                  rw [hfi]; simpa using hIn
                exact flattenInner_mem base et k inner r hin
              · exact flattenTop_mem base et rest r hIn
  | (k, Json.null) :: rest, r, hr => by
      rw [flattenTop_cons_scalar base et k Json.null rest (by intro inner h; cases h)] at hr
      cases hq : pyFloat Json.null with
      | error e => rw [hq] at hr; simp at hr
      | ok q =>
          rw [hq] at hr
          rcases mem_of_consMatch hr with hEq | hMem
          · exact ⟨k, q, hEq⟩
          · exact flattenTop_mem base et rest r hMem
  | (k, Json.bool b) :: rest, r, hr => by
      rw [flattenTop_cons_scalar base et k (Json.bool b) rest (by intro inner h; cases h)] at hr
      cases hq : pyFloat (Json.bool b) with
      | error e => rw [hq] at hr; simp at hr
      | ok q =>
          rw [hq] at hr
          rcases mem_of_consMatch hr with hEq | hMem
          · exact ⟨k, q, hEq⟩
          · exact flattenTop_mem base et rest r hMem
  | (k, Json.jint n) :: rest, r, hr => by
      rw [flattenTop_cons_scalar base et k (Json.jint n) rest (by intro inner h; cases h)] at hr
      cases hq : pyFloat (Json.jint n) with
      | error e => rw [hq] at hr; simp at hr
      | ok q =>
          rw [hq] at hr
          rcases mem_of_consMatch hr with hEq | hMem
          · exact ⟨k, q, hEq⟩
          · exact flattenTop_mem base et rest r hMem
  | (k, Json.jfloat x) :: rest, r, hr => by
      rw [flattenTop_cons_scalar base et k (Json.jfloat x) rest (by intro inner h; cases h)] at hr
      cases hq : pyFloat (Json.jfloat x) with
      | error e => rw [hq] at hr; simp at hr
      | ok q =>
          rw [hq] at hr
          rcases mem_of_consMatch hr with hEq | hMem
          · exact ⟨k, q, hEq⟩
          · exact flattenTop_mem base et rest r hMem
  | (k, Json.str s) :: rest, r, hr => by
      rw [flattenTop_cons_scalar base et k (Json.str s) rest (by intro inner h; cases h)] at hr
      cases hq : pyFloat (Json.str s) with
      | error e => rw [hq] at hr; simp at hr
      | ok q =>
          rw [hq] at hr
          rcases mem_of_consMatch hr with hEq | hMem
          · exact ⟨k, q, hEq⟩
          · exact flattenTop_mem base et rest r hMem
  | (k, Json.arr xs) :: rest, r, hr => by
      rw [flattenTop_cons_scalar base et k (Json.arr xs) rest (by intro inner h; cases h)] at hr
      cases hq : pyFloat (Json.arr xs) with
      | error e => rw [hq] at hr; simp at hr
      | ok q =>
          rw [hq] at hr
          rcases mem_of_consMatch hr with hEq | hMem
          · exact ⟨k, q, hEq⟩
          · exact flattenTop_mem base et rest r hMem

end InsightsStream

theorem sum_of_const : ∀ (l : List Nat) (K : Nat), (∀ x ∈ l, x = K) → l.sum = l.length * K
  | [], K, _ => by simp
  | x :: rest, K, h => by
      have hx : x = K := h x (List.mem_cons_self _ _)
      have ih := sum_of_const rest K (fun y hy => h y (List.mem_cons_of_mem _ hy))
      simp [hx, ih, Nat.succ_mul, Nat.add_comm]

namespace InsightsStream

theorem flattenInner_all_ok (base : Rec) (et key : String) :
    ∀ (kvs : List (String × Json)),
      (∀ p ∈ kvs, ∃ q, pyFloat p.2 = .ok q) →
      (flattenInner base et key kvs).2 = none
      ∧ (flattenInner base et key kvs).1.length = kvs.length
      ∧ (alookup base "context" = none →
          (flattenInner base et key kvs).1.map (fun r => alookup r "context")
            = kvs.map (fun p => some (Json.str (key ++ " > " ++ p.1))))
  | [], _ => by simp [flattenInner]
  | (k, v) :: rest, h => by
      obtain ⟨q, hq⟩ := h (k, v) (List.mem_cons_self _ _)
      have ih := flattenInner_all_ok base et key rest
        (fun p hp => h p (List.mem_cons_of_mem _ hp))
      unfold flattenInner
      rw [hq]
      cases hrec : flattenInner base et key rest with
      | mk rs err =>
          rw [hrec] at ih
          obtain ⟨h1, h2, h3⟩ := ih
          dsimp only at h1 h2 h3 ⊢
          subst h1
          refine ⟨rfl, by simpa using h2, ?_⟩
          intro hb
          simp only [List.map_cons]
          rw [alookup_item_context base (key ++ " > " ++ k) q et hb, h3 hb]

theorem flattenTop_flat (base : Rec) (et : String) :
    ∀ (kvs : List (String × Json)),
      (∀ p ∈ kvs, (∀ inner, p.2 ≠ Json.obj inner) ∧ ∃ q, pyFloat p.2 = .ok q) →
      (flattenTop base et kvs).2 = none
      ∧ (flattenTop base et kvs).1.length = kvs.length
      ∧ (alookup base "context" = none →
          (flattenTop base et kvs).1.map (fun r => alookup r "context")
            = kvs.map (fun p => some (Json.str p.1)))
  | [], _ => by simp [flattenTop]
  | (k, v) :: rest, h => by
      obtain ⟨hnot, q, hq⟩ := h (k, v) (List.mem_cons_self _ _)
      have ih := flattenTop_flat base et rest (fun p hp => h p (List.mem_cons_of_mem _ hp))
      rw [flattenTop_cons_scalar base et k v rest hnot, hq]
      cases hrec : flattenTop base et rest with
      | mk rs err =>
          rw [hrec] at ih
          obtain ⟨h1, h2, h3⟩ := ih
          dsimp only at h1 h2 h3 ⊢
          subst h1
          refine ⟨rfl, by simpa using h2, ?_⟩
          intro hb
          simp only [List.map_cons]
          rw [alookup_item_context base k q et hb, h3 hb]

theorem flattenTop_nested (base : Rec) (et : String) :
    ∀ (kvss : List (String × List (String × Json))),
      (∀ kv ∈ kvss, ∀ p ∈ kv.2, ∃ q, pyFloat p.2 = .ok q) →
      (flattenTop base et (kvss.map (fun kv => (kv.1, Json.obj kv.2)))).2 = none
      ∧ (flattenTop base et (kvss.map (fun kv => (kv.1, Json.obj kv.2)))).1.length
          = (kvss.map (fun kv => kv.2.length)).sum
      ∧ (alookup base "context" = none →
          (flattenTop base et (kvss.map (fun kv => (kv.1, Json.obj kv.2)))).1.map
              (fun r => alookup r "context")
            = (kvss.map (fun kv =>
                kv.2.map (fun p => some (Json.str (kv.1 ++ " > " ++ p.1))))).flatten)
  | [], _ => by simp [flattenTop]
  | (key, inner) :: rest, h => by
      have hhead := flattenInner_all_ok base et key inner
        (h (key, inner) (List.mem_cons_self _ _))
      have ih := flattenTop_nested base et rest (fun kv hkv => h kv (List.mem_cons_of_mem _ hkv))
      simp only [List.map_cons]
      unfold flattenTop
      cases hfi : flattenInner base et key inner with
      | mk rs1 err1 =>
          rw [hfi] at hhead
          obtain ⟨g1, g2, g3⟩ := hhead
          dsimp only at g1 g2 g3
          subst g1
          cases hrec : flattenTop base et (rest.map (fun kv => (kv.1, Json.obj kv.2))) with
          | mk rs2 err2 =>
              rw [hrec] at ih
              obtain ⟨h1, h2, h3⟩ := ih
              dsimp only at h1 h2 h3 ⊢
              subst h1
              refine ⟨rfl, ?_, ?_⟩
              · simp [g2, h2]
              · intro hb
                simp only [List.flatten, List.map_append]
                rw [g3 hb, h3 hb]

end InsightsStream

theorem alookup_scalarItem_end_time (vals base : Rec) (et : String)
    (hb : alookup base "end_time" = none) :
    alookup (aupdate (aset vals "end_time" (Json.str et)) base) "end_time"
      = some (Json.str et) := by
  rw [alookup_aupdate_notin _ _ _ hb, alookup_aset_self]

namespace InsightsStream

theorem computeEndTime_absent (today : Date) (vals : Rec)
    (h : alookup vals "end_time" = none) :
    computeEndTime today vals = .ok ((subYears 2 today).toMidnightString) := by
  unfold computeEndTime
  rw [h]

theorem computeEndTime_null (today : Date) (vals : Rec)
    (h : alookup vals "end_time" = some Json.null) :
    computeEndTime today vals = .ok ((subYears 2 today).toMidnightString) := by
  unfold computeEndTime
  rw [h]
  rfl

theorem computeEndTime_parsed (today : Date) (vals : Rec) (s t : String)
    (h : alookup vals "end_time" = some (Json.str s)) (hs : s ≠ "")
    (hp : pendulumParseToDatetimeString s = some t) :
    computeEndTime today vals = .ok t := by
  unfold computeEndTime
  rw [h]
  simp [Json.truthy, hs, hp]

theorem flattenEntry_eq_flattenTop (today : Date) (base vals : Rec)
    (kvs : List (String × Json)) (et : String)
    (hev : computeEndTime today vals = .ok et)
    (hv : alookup vals "value" = some (Json.obj kvs)) :
    flattenEntry today base vals = flattenTop base et kvs := by
  unfold flattenEntry
  rw [hev, hv]

theorem flattenEntry_eq_scalar (today : Date) (base vals : Rec) (v : Json) (et : String)
    (hev : computeEndTime today vals = .ok et)
    (hv : alookup vals "value" = some v)
    (hnot : ∀ kvs, v ≠ Json.obj kvs) :
    flattenEntry today base vals
      = ([aupdate (aset vals "end_time" (Json.str et)) base], none) := by
  unfold flattenEntry
  rw [hev, hv]
  cases v with
  | obj kvs => exact absurd rfl (hnot kvs)
  | null => rfl
  | bool b => rfl
  | jint n => rfl
  | jfloat x => rfl
  | str s => rfl
  | arr xs => rfl

theorem flattenEntry_end_time (today : Date) (base vals : Rec) (et : String)
    (hev : computeEndTime today vals = .ok et) (hb : alookup base "end_time" = none) :
    ∀ r ∈ (flattenEntry today base vals).1, alookup r "end_time" = some (Json.str et) := by
  intro r hr
  cases hv : alookup vals "value" with
  | none =>
      unfold flattenEntry at hr
      rw [hev, hv] at hr
      simp at hr
  | some v =>
      by_cases hobj : ∃ kvs, v = Json.obj kvs
      · obtain ⟨kvs, rfl⟩ := hobj
        rw [flattenEntry_eq_flattenTop today base vals kvs et hev hv] at hr
        obtain ⟨c, q, rfl⟩ := flattenTop_mem base et kvs r hr
        exact alookup_item_end_time base c q et hb
      · rw [flattenEntry_eq_scalar today base vals v et hev hv
          (fun kvs h => hobj ⟨kvs, h⟩)] at hr
        simp only [List.mem_singleton] at hr
        subst hr
        exact alookup_scalarItem_end_time vals base et hb

end InsightsStream

/-- Fixed evaluation date used by concrete scenarios: the flattener receives
pendulum.today() as an explicit input of the embedding. -/
def d0 : Date := ⟨2024, 6, 15⟩

/-- Response of concrete scenario A of the spec. -/
def payloadA : Json := .obj [("data", .arr [
  .obj [("id", .str "1"), ("name", .str "page_video_views"), ("period", .str "day"),
    ("title", .str "t"),
    ("values", .arr [.obj [("value", .jint 42),
      ("end_time", .str "2024-01-01T00:00:00+0000")]])]])]

/-- Record that scenario A of the spec asserts: context bound to null and the
value coerced to a float. -/
def specRecordA : Rec :=
  [("id", .str "1"), ("name", .str "page_video_views"), ("period", .str "day"),
    ("title", .str "t"), ("context", .null), ("value", .jfloat 42),
    ("end_time", .str "2024-01-01 00:00:00")]

/-- Record the code actually yields on scenario A: the original values entry
with end_time rewritten in place and the base fields appended; no context
binding and the value left as the Python int 42. -/
def actualRecordA : Rec :=
  [("value", .jint 42), ("end_time", .str "2024-01-01 00:00:00"),
    ("name", .str "page_video_views"), ("period", .str "day"), ("title", .str "t"),
    ("id", .str "1")]

/-- C1 counterexample: on the scenario A response the flattener does not
produce the record the spec asserts, whatever binding order is chosen: the
yielded record carries no context binding at all (the spec asserts context
bound to null) and its value is the unconverted int 42 (the spec asserts the
float 42.0). -/
theorem C1_counterexample :
    InsightsStream.parse_response d0 payloadA ≠ ([specRecordA], none)
    ∧ (InsightsStream.parse_response d0 payloadA).1.map (fun r => alookup r "context")
        = [none]
    ∧ (InsightsStream.parse_response d0 payloadA).1.map (fun r => alookup r "value")
        = [some (Json.jint 42)] := by
  refine ⟨by decide, rfl, rfl⟩

/-- C1 (amended): the scenario A response flattens, for every current date,
to exactly one record, namely the values entry itself with end_time rewritten
to 2024-01-01 00:00:00 and the base fields appended: value stays the int 42
and no context binding is added. -/
theorem C1_flatten_scenarioA :
    ∀ today : Date, InsightsStream.parse_response today payloadA = ([actualRecordA], none) :=
  fun _ => rfl

/-- Response whose single leaf value is a non-numeric string. -/
def payloadBadLeaf : Json := .obj [("data", .arr [
  .obj [("id", .str "1"), ("name", .str "page_fans_by_like_source"), ("period", .str "day"),
    ("title", .str "t"),
    ("values", .arr [.obj [("value", .obj [("fans", .str "unknown")]),
      ("end_time", .str "2024-01-01T00:00:00+0000")]])]])]

/-- C2 counterexample: the scenario A response is flattened with its scalar
leaf left as the Python int 42, not coerced to a float, and a payload with a
non-numeric leaf under an object-shaped value makes the flattener raise
ValueError (emitting no record) instead of dropping the leaf with a
warning. -/
theorem C2_counterexample :
    (InsightsStream.parse_response d0 payloadA).1.map (fun r => alookup r "value")
        = [some (Json.jint 42)]
    ∧ (some (Json.jint 42) : Option Json) ≠ some (Json.jfloat 42)
    ∧ InsightsStream.parse_response d0 payloadBadLeaf = ([], some PyErr.valueError) := by
  refine ⟨rfl, by decide, rfl⟩

/-- C2 (amended): leaves that sit under an object-shaped value are coerced by
float() and emitted as Python floats; a scalar value is emitted unchanged,
with no coercion; and a non-coercible leaf under an object-shaped value
raises ValueError, aborting the stream, instead of being dropped with a
warning. -/
theorem C2_coercion :
    (∀ (base : Rec) (et : String) (kvs : List (String × Json)) (r : Rec),
        alookup base "value" = none → r ∈ (InsightsStream.flattenTop base et kvs).1 →
        ∃ q, alookup r "value" = some (Json.jfloat q))
    ∧ (∀ (today : Date) (base vals : Rec) (v : Json) (et : String),
        alookup base "value" = none →
        InsightsStream.computeEndTime today vals = .ok et →
        alookup vals "value" = some v → (∀ kvs, v ≠ Json.obj kvs) →
        (InsightsStream.flattenEntry today base vals).1.map (fun r => alookup r "value")
          = [some v])
    ∧ (∀ (base : Rec) (et k s : String) (rest : List (String × Json)),
        parseFloatString s = none →
        InsightsStream.flattenTop base et ((k, Json.str s) :: rest)
          = ([], some PyErr.valueError)) := by
  refine ⟨?_, ?_, ?_⟩
  · intro base et kvs r hb hr
    obtain ⟨c, q, rfl⟩ := InsightsStream.flattenTop_mem base et kvs r hr
    exact ⟨q, alookup_item_value base c q et hb⟩
  · intro today base vals v et hb hev hv hnot
    rw [InsightsStream.flattenEntry_eq_scalar today base vals v et hev hv hnot]
    simp only [List.map_cons, List.map_nil]
    rw [alookup_aupdate_notin _ _ _ hb, alookup_aset_ne _ _ _ _ (by decide), hv]
  · intro base et k s rest hs
    rw [InsightsStream.flattenTop_cons_scalar base et k (Json.str s) rest
      (fun inner h => by cases h)]
    simp [pyFloat, hs]

/-- C2 witness: the scalar part applied to the scenario A values entry. -/
theorem C2_coercion_witness :
    (InsightsStream.flattenEntry d0 [("name", Json.str "n")]
        [("value", Json.jint 42), ("end_time", Json.str "2024-01-01T00:00:00+0000")]).1.map
        (fun r => alookup r "value")
      = [some (Json.jint 42)] :=
  C2_coercion.2.1 d0 [("name", Json.str "n")]
    [("value", Json.jint 42), ("end_time", Json.str "2024-01-01T00:00:00+0000")]
    (Json.jint 42) "2024-01-01 00:00:00" (by decide) rfl (by decide)
    (fun kvs h => by cases h)

/-- Absence of the error.message field in a decoded JSON body, in the sense
the spec quantifies over: the body is an object and either has no error field
or its error field is an object without a message binding. -/
def noErrorMessage : Json → Bool
  | .obj bodyFields =>
      match alookup bodyFields "error" with
      | none => true
      | some (.obj errFields) => (alookup errFields "message").isNone
      | some _ => false
  | _ => false

theorem classifyTail_none (status : Nat) (msg : String) :
    FacebookPagesStream.classifyTail status msg none
      = if status = 403 then .crash .typeError else .fail msg := by
  unfold FacebookPagesStream.classifyTail
  simp

theorem validate_response_noMsg (status : Nat) (reason path : String)
    (bodyFields : List (String × Json))
    (hcond : ((400 ≤ status && status < 500) || status == 100) = true)
    (hnomsg : noErrorMessage (Json.obj bodyFields) = true) :
    FacebookPagesStream.validate_response status reason path (Json.obj bodyFields)
      = if status = 100 ∨ status = 400 ∨ status = 403 then .crash PyErr.typeError
        else .fail (FacebookPagesStream.clientErrorMsg status reason path none) := by
  unfold FacebookPagesStream.validate_response
  rw [if_pos hcond]
  dsimp only
  cases herr : alookup bodyFields "error" with
  | none =>
      dsimp only [Option.getD, alookup]
      by_cases h14 : status = 100 ∨ status = 400
      · have hif : ((decide (status = 100) || decide (status = 400)) = true) := by
          rcases h14 with h | h <;> simp [h]
        rw [if_pos hif]
        rw [if_pos (by tauto)]
      · have hif : ((decide (status = 100) || decide (status = 400)) = false) := by
          rcases not_or.mp h14 with ⟨h1, h2⟩
          simp [h1, h2]
        rw [if_neg (by simp [hif])]
        rw [classifyTail_none]
        by_cases h403 : status = 403
        · rw [if_pos h403, if_pos (by tauto)]
        · rw [if_neg h403, if_neg (by tauto)]
  | some errVal =>
      cases errVal with
      | obj errFields =>
          have hmsg : alookup errFields "message" = none := by
            simp only [noErrorMessage, herr] at hnomsg
            cases hm : alookup errFields "message" with
            | none => rfl
            | some v => rw [hm] at hnomsg; simp at hnomsg
          dsimp only [Option.getD]
          rw [hmsg]
          by_cases h14 : status = 100 ∨ status = 400
          · have hif : ((decide (status = 100) || decide (status = 400)) = true) := by
              rcases h14 with h | h <;> simp [h]
            rw [if_pos hif]
            rw [if_pos (by tauto)]
          · have hif : ((decide (status = 100) || decide (status = 400)) = false) := by
              rcases not_or.mp h14 with ⟨h1, h2⟩
              simp [h1, h2]
            rw [if_neg (by simp [hif])]
            rw [classifyTail_none]
            by_cases h403 : status = 403
            · rw [if_pos h403, if_pos (by tauto)]
            · rw [if_neg h403, if_neg (by tauto)]
      | null => simp [noErrorMessage, herr] at hnomsg
      | bool b => simp [noErrorMessage, herr] at hnomsg
      | jint n => simp [noErrorMessage, herr] at hnomsg
      | jfloat q => simp [noErrorMessage, herr] at hnomsg
      | str s => simp [noErrorMessage, herr] at hnomsg
      | arr xs => simp [noErrorMessage, herr] at hnomsg

/-- C3 (amended): when a guarded-range response carries no error.message, the
classifier falls through to FatalAPIError only for statuses other than 100,
400 and 403; for 100 and 400 the skip patterns, and for 403 the monetization
pattern, are matched against the absent message (Python None), so the
classifier itself crashes with TypeError instead of failing cleanly. -/
theorem C3_classifier :
    ∀ (status : Nat) (reason path : String) (body : Json),
      ((400 ≤ status ∧ status < 500) ∨ status = 100) →
      noErrorMessage body = true →
      ((status ≠ 100 ∧ status ≠ 400 ∧ status ≠ 403) →
          FacebookPagesStream.validate_response status reason path body
            = .fail (FacebookPagesStream.clientErrorMsg status reason path none))
      ∧ ((status = 100 ∨ status = 400 ∨ status = 403) →
          FacebookPagesStream.validate_response status reason path body
            = .crash PyErr.typeError) := by
  intro status reason path body hrange hnomsg
  have hcond : ((400 ≤ status && status < 500) || status == 100) = true := by
    rcases hrange with ⟨h1, h2⟩ | h1
    · simp [h1, h2]
    · simp [h1]
  cases body with
  | obj bodyFields =>
      rw [validate_response_noMsg status reason path bodyFields hcond hnomsg]
      constructor
      · intro ⟨hne100, hne400, hne403⟩
        rw [if_neg (by tauto)]
      · intro hcase
        rw [if_pos hcase]
  | null => simp [noErrorMessage] at hnomsg
  | bool b => simp [noErrorMessage] at hnomsg
  | jint n => simp [noErrorMessage] at hnomsg
  | jfloat q => simp [noErrorMessage] at hnomsg
  | str s => simp [noErrorMessage] at hnomsg
  | arr xs => simp [noErrorMessage] at hnomsg

/-- C3 counterexample: a 400 response whose body is the empty JSON object
(hence with no error.message) does not produce the fatal outcome the spec
asserts: the classifier crashes with TypeError, because the skip patterns are
matched against None. -/
theorem C3_counterexample :
    FacebookPagesStream.validate_response 400 "Bad Request" "/p" (Json.obj [])
        = VOutcome.crash PyErr.typeError
    ∧ ∀ m : String,
        FacebookPagesStream.validate_response 400 "Bad Request" "/p" (Json.obj [])
          ≠ VOutcome.fail m := by
  refine ⟨by decide, ?_⟩
  intro m h
  rw [show FacebookPagesStream.validate_response 400 "Bad Request" "/p" (Json.obj [])
      = VOutcome.crash PyErr.typeError from by decide] at h
  cases h

/-- C3 witness: the amended claim applied at a 404 response with an empty
body. -/
theorem C3_classifier_witness :
    FacebookPagesStream.validate_response 404 "Not Found" "/p" (Json.obj [])
      = .fail (FacebookPagesStream.clientErrorMsg 404 "Not Found" "/p" none) :=
  (C3_classifier 404 "Not Found" "/p" (Json.obj [])
    (Or.inl (by omega)) (by decide)).1 (by omega)

/-- C4 counterexample: on the scenario A response, whose value is a scalar,
the single flattened record carries no context binding at all, whereas the
claim asserts a record with context equal to null. -/
theorem C4_counterexample :
    (InsightsStream.parse_response d0 payloadA).1.map (fun r => alookup r "context")
        = [none]
    ∧ (none : Option Json) ≠ some Json.null := by
  refine ⟨rfl, by decide⟩

/-- C4 (amended): a scalar value yields exactly one record that has no
context binding (rather than a null one); a flat object with N keys yields
exactly N records with context equal to the respective key; and a two-level
nested object with M outer keys each holding K float-coercible inner keys
yields exactly M times K records with context equal to the outer key, a
separator, and the inner key. -/
theorem C4_shapes :
    (∀ (today : Date) (base vals : Rec) (v : Json) (et : String),
        InsightsStream.computeEndTime today vals = .ok et →
        alookup vals "value" = some v → (∀ kvs, v ≠ Json.obj kvs) →
        alookup base "context" = none → alookup vals "context" = none →
        (InsightsStream.flattenEntry today base vals).1.length = 1
        ∧ (InsightsStream.flattenEntry today base vals).1.map (fun r => alookup r "context")
            = [none])
    ∧ (∀ (base : Rec) (et : String) (kvs : List (String × Json)),
        (∀ p ∈ kvs, (∀ inner, p.2 ≠ Json.obj inner) ∧ ∃ q, pyFloat p.2 = .ok q) →
        alookup base "context" = none →
        (InsightsStream.flattenTop base et kvs).1.length = kvs.length
        ∧ (InsightsStream.flattenTop base et kvs).1.map (fun r => alookup r "context")
            = kvs.map (fun p => some (Json.str p.1)))
    ∧ (∀ (base : Rec) (et : String) (kvss : List (String × List (String × Json))) (K : Nat),
        (∀ kv ∈ kvss, ∀ p ∈ kv.2, ∃ q, pyFloat p.2 = .ok q) →
        (∀ kv ∈ kvss, kv.2.length = K) →
        alookup base "context" = none →
        (InsightsStream.flattenTop base et
            (kvss.map (fun kv => (kv.1, Json.obj kv.2)))).1.length = kvss.length * K
        ∧ (InsightsStream.flattenTop base et
              (kvss.map (fun kv => (kv.1, Json.obj kv.2)))).1.map
              (fun r => alookup r "context")
            = (kvss.map (fun kv =>
                kv.2.map (fun p => some (Json.str (kv.1 ++ " > " ++ p.1))))).flatten) := by
  refine ⟨?_, ?_, ?_⟩
  · intro today base vals v et hev hv hnot hbc hvc
    rw [InsightsStream.flattenEntry_eq_scalar today base vals v et hev hv hnot]
    refine ⟨rfl, ?_⟩
    simp only [List.map_cons, List.map_nil]
    rw [alookup_aupdate_notin _ _ _ hbc, alookup_aset_ne _ _ _ _ (by decide), hvc]
  · intro base et kvs h hbc
    obtain ⟨-, h2, h3⟩ := InsightsStream.flattenTop_flat base et kvs h
    exact ⟨h2, h3 hbc⟩
  · intro base et kvss K h hK hbc
    obtain ⟨-, h2, h3⟩ := InsightsStream.flattenTop_nested base et kvss h
    refine ⟨?_, h3 hbc⟩
    rw [h2, sum_of_const _ K, List.length_map]
    intro x hx
    obtain ⟨kv, hkv, rfl⟩ := List.mem_map.mp hx
    exact hK kv hkv

/-- Nested two-by-two value used by the C4 witness. -/
def kvssW : List (String × List (String × Json)) :=
  [("a", [("x", Json.jint 1), ("y", Json.jint 2)]),
    ("b", [("x", Json.jint 3), ("y", Json.jint 4)])]

/-- C4 witness: the nested part applied to a two-by-two nested value, and the
scalar part applied to the scenario A values entry. -/
theorem C4_shapes_witness :
    ((InsightsStream.flattenTop [("name", Json.str "n")] "E"
        (kvssW.map (fun kv => (kv.1, Json.obj kv.2)))).1.length = 2 * 2
      ∧ (InsightsStream.flattenTop [("name", Json.str "n")] "E"
            (kvssW.map (fun kv => (kv.1, Json.obj kv.2)))).1.map
            (fun r => alookup r "context")
          = (kvssW.map (fun kv =>
              kv.2.map (fun p => some (Json.str (kv.1 ++ " > " ++ p.1))))).flatten)
    ∧ (InsightsStream.flattenEntry d0 [("name", Json.str "n")]
          [("value", Json.jint 42), ("end_time", Json.str "2024-01-01T00:00:00+0000")]).1.length
        = 1 :=
  ⟨C4_shapes.2.2 [("name", Json.str "n")] "E" kvssW 2
      (by
        intro kv hkv p hp
        simp only [kvssW, List.mem_cons, List.not_mem_nil, or_false] at hkv
        rcases hkv with rfl | rfl <;>
          · simp only [List.mem_cons, List.not_mem_nil, or_false] at hp
            rcases hp with rfl | rfl
            · exact ⟨_, rfl⟩
            · exact ⟨_, rfl⟩)
      (by
        intro kv hkv
        simp only [kvssW, List.mem_cons, List.not_mem_nil, or_false] at hkv
        rcases hkv with rfl | rfl <;> rfl)
      (by decide),
    ((C4_shapes.1 d0 [("name", Json.str "n")]
      [("value", Json.jint 42), ("end_time", Json.str "2024-01-01T00:00:00+0000")]
      (Json.jint 42) "2024-01-01 00:00:00" rfl (by decide)
      (fun kvs h => by cases h) (by decide) (by decide)).1)⟩

/-- Error body of concrete scenario B of the spec: a 400 with an object-does-
not-exist message. -/
def bodyB : Json := .obj [("error", .obj [("message",
  .str ("(#100) Object with ID " ++ squote ++ "123_456" ++ squote
    ++ " does not exist"))])]

/-- C5: a 400 response with the scenario B message classifies as Skip: the
classifier logs a warning and returns normally without raising, and since the
error body carries no data field the partition page then yields no records,
i.e. it is treated as empty. -/
theorem C5_skip :
    ∀ (today : Date) (reason path : String),
      (∃ m, FacebookPagesStream.validate_response 400 reason path bodyB = VOutcome.skip m)
      ∧ InsightsStream.parse_response today bodyB = ([], none) := by
  intro today reason path
  exact ⟨⟨_, rfl⟩, rfl⟩

theorem resolveWithRetries_const_retry (f : Nat → VOutcome) (m : String)
    (hf : ∀ k, f k = VOutcome.retry m) :
    ∀ (fuel k : Nat), resolveWithRetries f fuel k = VOutcome.fail m
  | 0, k => by
      unfold resolveWithRetries
      rw [hf]
  | fuel + 1, k => by
      unfold resolveWithRetries
      rw [hf]
      exact resolveWithRetries_const_retry f m hf fuel (k + 1)

/-- Error body of concrete scenario C of the spec: a 400 with the page access
token message. -/
def bodyC : Json := .obj [("error", .obj [("message",
  .str FacebookPagesStream.page_access_token_message)])]

/-- C6: a 400 response whose message is exactly the page access token
complaint classifies as Retry (RetriableAPIError); the retry bound is raised
to ten attempts, and a retry loop in which every attempt keeps classifying
the same way converts the would-be retry into a Fail once the ten attempts
are exhausted. -/
theorem C6_retry :
    ∀ (reason path : String),
      FacebookPagesStream.validate_response 400 reason path bodyC
          = VOutcome.retry (FacebookPagesStream.clientErrorMsg 400 reason path
              (some (Json.str FacebookPagesStream.page_access_token_message)))
      ∧ FacebookPagesStream.backoff_max_tries = 10
      ∧ resolveWithRetries
            (fun _ => FacebookPagesStream.validate_response 400 reason path bodyC)
            (FacebookPagesStream.backoff_max_tries - 1) 1
          = VOutcome.fail (FacebookPagesStream.clientErrorMsg 400 reason path
              (some (Json.str FacebookPagesStream.page_access_token_message))) := by
  intro reason path
  have hstep : FacebookPagesStream.validate_response 400 reason path bodyC
      = VOutcome.retry (FacebookPagesStream.clientErrorMsg 400 reason path
          (some (Json.str FacebookPagesStream.page_access_token_message))) := rfl
  exact ⟨hstep, rfl,
    resolveWithRetries_const_retry _ _ (fun k => hstep) (FacebookPagesStream.backoff_max_tries - 1) 1⟩

/-- Response of a lifetime metric: its values entry has no end_time field. -/
def payloadLifetime : Json := .obj [("data", .arr [
  .obj [("id", .str "9"), ("name", .str "page_fans"), ("period", .str "lifetime"),
    ("title", .str "T"), ("values", .arr [.obj [("value", .jint 7)]])]])]

/-- C7 counterexample: the substituted end_time of a lifetime entry is not a
fixed sentinel: flattening the same payload on two different current dates
produces two different end_time values (the code uses pendulum.today() minus
two years). -/
theorem C7_counterexample :
    (InsightsStream.parse_response ⟨2024, 1, 1⟩ payloadLifetime).1.map
        (fun r => alookup r "end_time")
      ≠ (InsightsStream.parse_response ⟨2024, 6, 1⟩ payloadLifetime).1.map
        (fun r => alookup r "end_time") := by
  decide

/-- C7 (amended): an entry without an end_time field has it replaced by a
moving sentinel, the current date minus two years at midnight, which still
orders as a replication value but sits far enough in the past to stay below
any recent high-water mark; an entry whose end_time parses is rendered as the
canonical datetime string. -/
theorem C7_sentinel :
    (∀ (today : Date) (base vals : Rec),
        alookup base "end_time" = none → alookup vals "end_time" = none →
        ∀ r ∈ (InsightsStream.flattenEntry today base vals).1,
          alookup r "end_time"
            = some (Json.str ((subYears 2 today).toMidnightString)))
    ∧ (∀ (today : Date) (base vals : Rec) (s t : String),
        alookup base "end_time" = none →
        alookup vals "end_time" = some (Json.str s) → s ≠ "" →
        pendulumParseToDatetimeString s = some t →
        ∀ r ∈ (InsightsStream.flattenEntry today base vals).1,
          alookup r "end_time" = some (Json.str t)) := by
  constructor
  · intro today base vals hb hv
    exact InsightsStream.flattenEntry_end_time today base vals _
      (InsightsStream.computeEndTime_absent today vals hv) hb
  · intro today base vals s t hb hv hs hp
    exact InsightsStream.flattenEntry_end_time today base vals t
      (InsightsStream.computeEndTime_parsed today vals s t hv hs hp) hb

/-- C7 witness: the sentinel part applied at a concrete date; the current
date 2024-06-15 yields the sentinel 2022-06-15 00:00:00. -/
theorem C7_sentinel_witness :
    alookup (aupdate (aset [("value", Json.jint 7)] "end_time"
        (Json.str "2022-06-15 00:00:00")) [("name", Json.str "n")]) "end_time"
      = some (Json.str "2022-06-15 00:00:00") :=
  C7_sentinel.1 d0 [("name", Json.str "n")] [("value", Json.jint 7)]
    (by decide) (by decide) _ (by decide)

/-- C8: with no prior replication state (no starting timestamp from the
tracker) and start_date 2022-10-01, the page-level insights request builder
sets since to 2022-09-30, the configured start date minus one day. -/
theorem C8_since :
    ∀ (userToken pageToken : String) (metrics : List String),
      ∃ params,
        PageInsightsStream.get_url_params userToken [("p1", pageToken)] metrics
            (some "2022-10-01") "p1" none none = .ok params
        ∧ alookup params "since" = some "2022-09-30" := by
  intro userToken pageToken metrics
  refine ⟨_, rfl, ?_⟩
  rw [alookup_aset_ne _ _ _ _ (by decide), alookup_aset_ne _ _ _ _ (by decide),
    alookup_aset_self]
  rfl

theorem alookup_foldl_aset_notin (pages : List TapFacebookPages.PageCfg)
    (d : List (String × String)) (k : String)
    (h : k ∉ pages.map TapFacebookPages.PageCfg.id) :
    alookup (pages.foldl (fun acc p => aset acc p.id p.access_token) d) k
      = alookup d k := by
  induction pages generalizing d with
  | nil => rfl
  | cons p rest ih =>
      simp only [List.map_cons, List.mem_cons, not_or] at h
      simp only [List.foldl_cons]
      rw [ih _ h.2, alookup_aset_ne _ _ _ _ (Ne.symm h.1)]

theorem page_access_tokens_lookup :
    ∀ (pages : List TapFacebookPages.PageCfg) (p : TapFacebookPages.PageCfg),
      p ∈ pages → (pages.map TapFacebookPages.PageCfg.id).Nodup →
      alookup (TapFacebookPages.page_access_tokens pages) p.id = some p.access_token := by
  have main : ∀ (pages : List TapFacebookPages.PageCfg) (d : List (String × String))
      (p : TapFacebookPages.PageCfg), p ∈ pages →
      (pages.map TapFacebookPages.PageCfg.id).Nodup →
      alookup (pages.foldl (fun acc q => aset acc q.id q.access_token) d) p.id
        = some p.access_token := by
    intro pages
    induction pages with
    | nil => intro d p hp; cases hp
    | cons q rest ih =>
        intro d p hp hnodup
        simp only [List.map_cons, List.nodup_cons] at hnodup
        simp only [List.foldl_cons]
        rcases List.mem_cons.mp hp with rfl | hmem
        · rw [alookup_foldl_aset_notin rest _ _ hnodup.1, alookup_aset_self]
        · exact ih _ p hmem hnodup.2
  intro pages p hp hnodup
  exact main pages [] p hp hnodup

/-- C9: for every configured page the credential table maps its id to its
configured page-scoped access token (the token is used directly); the token
exchange request targets the base URL slash page id with the fields and
access_token query parameters; and any response whose status is not a
success (hence in particular any non-2xx status, the code demanding exactly
200) raises a run-aborting RuntimeError embedding the upstream error
message. -/
theorem C9_credentials :
    (∀ (pages : List TapFacebookPages.PageCfg) (p : TapFacebookPages.PageCfg),
        p ∈ pages → (pages.map TapFacebookPages.PageCfg.id).Nodup →
        alookup (TapFacebookPages.page_access_tokens pages) p.id = some p.access_token)
    ∧ (∀ pageId userToken,
        TapFacebookPages.exchange_token_url pageId
            = "https://graph.facebook.com/v15.0/" ++ pageId
        ∧ TapFacebookPages.exchange_token_params userToken
            = [("fields", "access_token,name"), ("access_token", userToken)])
    ∧ (∀ (status : Nat) (bodyFields errFields : List (String × Json)) (m : String),
        ¬ (200 ≤ status ∧ status < 300) →
        alookup bodyFields "error" = some (.obj errFields) →
        alookup errFields "message" = some (.str m) →
        TapFacebookPages.exchange_token status (.obj bodyFields)
          = .runtimeError ("Failed exchanging token: " ++ m)) := by
  refine ⟨?_, ?_, ?_⟩
  · intro pages p hp hnodup
    exact page_access_tokens_lookup pages p hp hnodup
  · intro pageId userToken
    exact ⟨rfl, rfl⟩
  · intro status bodyFields errFields m hstatus herr hmsg
    have hne : status ≠ 200 := by omega
    unfold TapFacebookPages.exchange_token
    rw [if_pos hne]
    dsimp only
    rw [herr]
    dsimp only
    rw [hmsg]

/-- C9 witness: the credential table for one configured page, and the token
exchange outcome on a 404 with an error message. -/
theorem C9_credentials_witness :
    alookup (TapFacebookPages.page_access_tokens [⟨"p1", "TOK1"⟩]) "p1" = some "TOK1"
    ∧ TapFacebookPages.exchange_token 404
          (.obj [("error", .obj [("message", Json.str "bad page")])])
        = .runtimeError "Failed exchanging token: bad page" :=
  ⟨C9_credentials.1 [⟨"p1", "TOK1"⟩] ⟨"p1", "TOK1"⟩ (List.mem_singleton.mpr rfl)
      (by decide),
    C9_credentials.2.2 404 [("error", .obj [("message", Json.str "bad page")])]
      [("message", Json.str "bad page")] "bad page" (by omega) rfl rfl⟩

/-- Paged response body with an after cursor, as the base stream consumes. -/
def pagedBody : Json := .obj [("data", .arr []),
  ("paging", .obj [("cursors", .obj [("after", .str "CURSOR")])])]

/-- C10: the insights override of get_next_page_token returns None for every
response, so insights streams fetch a single page per partition, while the
base stream extraction does follow paging.cursors.after on the same body. -/
theorem C10_no_pagination :
    (∀ (body : Json) (headers : List (String × String)) (prev : Option Json),
        InsightsStream.get_next_page_token body headers prev = none)
    ∧ FacebookPagesStream.get_next_page_token pagedBody [] none
        = some (Json.str "CURSOR") := by
  exact ⟨fun _ _ _ => rfl, rfl⟩

/-- C1 witness: the amended claim applied at the concrete date. -/
theorem C1_flatten_scenarioA_witness :
    InsightsStream.parse_response d0 payloadA = ([actualRecordA], none) :=
  C1_flatten_scenarioA d0

/-- C5 witness: the skip classification applied at concrete transport
strings and date. -/
theorem C5_skip_witness :
    (∃ m, FacebookPagesStream.validate_response 400 "Bad Request" "/1/insights" bodyB
        = VOutcome.skip m)
    ∧ InsightsStream.parse_response d0 bodyB = ([], none) :=
  C5_skip d0 "Bad Request" "/1/insights"

/-- C6 witness: the retry classification and exhaustion applied at concrete
transport strings. -/
theorem C6_retry_witness :
    FacebookPagesStream.validate_response 400 "Bad Request" "/1/insights" bodyC
        = VOutcome.retry (FacebookPagesStream.clientErrorMsg 400 "Bad Request" "/1/insights"
            (some (Json.str FacebookPagesStream.page_access_token_message)))
    ∧ FacebookPagesStream.backoff_max_tries = 10
    ∧ resolveWithRetries
          (fun _ => FacebookPagesStream.validate_response 400 "Bad Request" "/1/insights" bodyC)
          (FacebookPagesStream.backoff_max_tries - 1) 1
        = VOutcome.fail (FacebookPagesStream.clientErrorMsg 400 "Bad Request" "/1/insights"
            (some (Json.str FacebookPagesStream.page_access_token_message))) :=
  C6_retry "Bad Request" "/1/insights"

/-- C8 witness: the since computation applied at concrete tokens and a
concrete metric list. -/
theorem C8_since_witness :
    ∃ params,
      PageInsightsStream.get_url_params "UT" [("p1", "TOK")] ["page_video_views"]
          (some "2022-10-01") "p1" none none = .ok params
      ∧ alookup params "since" = some "2022-09-30" :=
  C8_since "UT" "TOK" ["page_video_views"]

/-- C10 witness: both parts applied at the concrete paged body. -/
theorem C10_no_pagination_witness :
    InsightsStream.get_next_page_token pagedBody [] none = none
    ∧ FacebookPagesStream.get_next_page_token pagedBody [] none
        = some (Json.str "CURSOR") :=
  ⟨C10_no_pagination.1 pagedBody [] none, C10_no_pagination.2⟩
